import Mathlib

/-
Shallow embedding of the MSK inventory fetcher (msk_inventory_fetcher.py).
CloudWatch values are modelled as exact rationals, timestamps as integers
(seconds), and the CloudWatch client as a function from a statistics request
to either an exception (Except.error) or a list of datapoints.  Python
dictionaries holding metric results are modelled as association lists in
insertion order.  Fields of the script that are pure pass-through glue
(cluster ARN, creation-time formatting, CSV serialization) do not influence
any aggregation or resolution decision and are not part of the model.
-/

deriving instance DecidableEq for Except

namespace Msk

/-- One timestamped statistical sample returned by get_metric_statistics.
The Average / Maximum statistics are optional, as datapoint.get is used. -/
structure Datapoint where
  timestamp : Int
  average : Option ℚ
  maximum : Option ℚ
deriving DecidableEq

/-- Arguments of one cloudwatch get_metric_statistics call. -/
structure MetricRequest where
  nspace : String
  metricName : String
  dimensions : List (String × String)
  startTime : Int
  endTime : Int
  period : Nat
  statistics : List String
  unit : String
deriving DecidableEq

/-- The cloudwatch client: a request either raises or returns datapoints. -/
abbrev CloudWatch := MetricRequest → Except Unit (List Datapoint)

/-- A Python value as it flows through the script for fields such as
NumberOfBrokerNodes: None, an integer, or a string (for example the
initial placeholder string). -/
inductive PyVal where
  | none
  | num (n : Nat)
  | str (s : String)
deriving DecidableEq

/-- Python truthiness test used by the guard not number_of_broker_nodes:
None, 0 and the empty string are falsy. -/
def pyFalsy : PyVal → Bool
  | PyVal.none => true
  | PyVal.num _n => _n == 0
  | PyVal.str s => s == ""

/-- Decimal parse of a string: a non-empty all-digit string is a number,
anything else is not. -/
def strToNat? (s : String) : Option Nat :=
  if s.data ≠ [] ∧ s.data.all Char.isDigit then
    Option.some (s.data.foldl (fun acc c => acc * 10 + (c.toNat - 48)) 0)
  else Option.none

/-- Python int(...) conversion: succeeds on integers and decimal-digit
strings, raises otherwise. -/
def pyInt : PyVal → Except Unit Nat
  | PyVal.none => Except.error ()
  | PyVal.num n => Except.ok n
  | PyVal.str s =>
    match strToNat? s with
    | Option.some n => Except.ok n
    | Option.none => Except.error ()

/-- One entry of the provisioned metric_configs table. -/
structure MetricConfig where
  name : String
  nspace : String
  cwMetricName : String
  unit : String
  aggregationType : String
deriving DecidableEq

/-- The provisioned metric policy table (metric_configs). -/
def metric_configs : List MetricConfig :=
  [ ⟨"StorageUsedPercent", "AWS/Kafka", "KafkaDataLogsDiskUsed", "Percent", "avg_brokers_peak_max_agg"⟩,
    ⟨"GlobalPartitionCount", "AWS/Kafka", "GlobalPartitionCount", "Count", "cluster_latest_value"⟩,
    ⟨"GlobalTopicCount", "AWS/Kafka", "GlobalTopicCount", "Count", "cluster_latest_value"⟩,
    ⟨"BytesInPerSec", "AWS/Kafka", "BytesInPerSec", "Bytes/Second", "sum_brokers_agg"⟩,
    ⟨"BytesOutPerSec", "AWS/Kafka", "BytesOutPerSec", "Bytes/Second", "sum_brokers_agg"⟩,
    ⟨"ClientConnectionCount", "AWS/Kafka", "ClientConnectionCount", "Count", "sum_brokers_agg"⟩,
    ⟨"ConnectionCloseRate", "AWS/Kafka", "ConnectionCloseRate", "Count/Second", "sum_brokers_agg"⟩,
    ⟨"ConnectionCreationRate", "AWS/Kafka", "ConnectionCreationRate", "Count/Second", "sum_brokers_agg"⟩,
    ⟨"RequestBytesMean", "AWS/Kafka", "RequestBytesMean", "Bytes", "avg_brokers_peak_max_agg"⟩ ]

/-- One entry of the serverless metric table. -/
structure ServerlessMetricConfig where
  name : String
  unit : String
deriving DecidableEq

/-- The serverless metric policy table (serverless_metric_configs). -/
def serverless_metric_configs : List ServerlessMetricConfig :=
  [ ⟨"BytesInPerSec", "Bytes/Second"⟩, ⟨"BytesOutPerSec", "Bytes/Second"⟩ ]

/-- The single whole-window request issued for a serverless metric:
window of period_days ending at end_time, one period spanning it. -/
def serverlessRequest (cfg : ServerlessMetricConfig) (cn : String) (eT : Int) (pd : Nat) :
    MetricRequest :=
  { nspace := "AWS/Kafka-Serverless"
    metricName := cfg.name
    dimensions := [("Cluster Name", cn)]
    startTime := eT - (pd * 86400 : Nat)
    endTime := eT
    period := pd * 86400
    statistics := ["Average", "Maximum"]
    unit := cfg.unit }

/-- The cluster-granularity request of a cluster_latest_value metric:
last 15 minutes, 60-second period, Maximum statistic only. -/
def latestRequest (cfg : MetricConfig) (cn : String) (sL eT : Int) : MetricRequest :=
  { nspace := cfg.nspace
    metricName := cfg.cwMetricName
    dimensions := [("Cluster Name", cn)]
    startTime := sL
    endTime := eT
    period := 60
    statistics := ["Maximum"]
    unit := cfg.unit }

/-- The per-broker whole-window request of a broker-aggregated metric. -/
def brokerRequest (cfg : MetricConfig) (cn : String) (i : Nat) (sA eT : Int) (per : Nat) :
    MetricRequest :=
  { nspace := cfg.nspace
    metricName := cfg.cwMetricName
    dimensions := [("Cluster Name", cn), ("Broker ID", toString i)]
    startTime := sA
    endTime := eT
    period := per
    statistics := ["Average", "Maximum"]
    unit := cfg.unit }

/-- Choice of the later of two datapoints; keeps the accumulator on ties, so
a left fold with it returns the first element carrying the maximal
timestamp, exactly the head of the stable descending sort used in the
source (sorted by Timestamp, reverse=True). -/
def laterOf (acc x : Datapoint) : Datapoint :=
  if acc.timestamp < x.timestamp then x else acc

/-- Head of the returned datapoints sorted by descending timestamp:
the first datapoint carrying the maximal timestamp, none when empty. -/
def latestDatapoint : List Datapoint → Option Datapoint
  | [] => Option.none
  | d :: ds => Option.some (ds.foldl laterOf d)

/-- The single datapoint used for one broker: head of the returned list,
none when the call raised or returned no datapoints. -/
def brokerSample (cw : CloudWatch) (cfg : MetricConfig) (cn : String) (sA eT : Int)
    (per : Nat) (i : Nat) : Option Datapoint :=
  match cw (brokerRequest cfg cn i sA eT per) with
  | Except.error _e => Option.none
  | Except.ok [] => Option.none
  | Except.ok (d :: _rest) => Option.some d

/-- The per_broker_avg_values and per_broker_peak_values lists collected by
the broker loop for broker ids 1 .. n: a failed or empty broker query
contributes nothing, and each statistic is appended only when present. -/
def collectBrokerSamples (cw : CloudWatch) (cfg : MetricConfig) (cn : String)
    (sA eT : Int) (per : Nat) (n : Nat) : List ℚ × List ℚ :=
  ((List.range n).map (fun k => k + 1)).foldl
    (fun acc i =>
      match brokerSample cw cfg cn sA eT per i with
      | Option.none => acc
      | Option.some d =>
        ((match d.average with
          | Option.some a => acc.1 ++ [a]
          | Option.none => acc.1),
         (match d.maximum with
          | Option.some m => acc.2 ++ [m]
          | Option.none => acc.2)))
    ([], [])

/-- Collapse of the collected per-broker lists into the cluster pair:
sum_brokers_agg sums both lists, avg_brokers_peak_max_agg takes the
arithmetic mean of the averages and the maximum of the maxima; an empty
list yields None on that side. -/
def brokerAggregate (isSum : Bool) (avgs peaks : List ℚ) : Option ℚ × Option ℚ :=
  if isSum then
    ((if avgs.isEmpty then Option.none else Option.some avgs.sum),
     (if peaks.isEmpty then Option.none else Option.some peaks.sum))
  else
    ((if avgs.isEmpty then Option.none else Option.some (avgs.sum / (avgs.length : ℚ))),
     (match peaks with
      | [] => Option.none
      | m :: ms => Option.some (ms.foldl max m)))

/-- The entries a sum_brokers_agg or avg_brokers_peak_max_agg metric adds to
metrics_data.  The guard continue-s (adds nothing) when the broker count is
falsy or converts to 0; a failing int() conversion is the exception caught
by the per-metric handler, which then stores None under both keys. -/
def brokerMetricEntries (cw : CloudWatch) (cn : String) (nb : PyVal) (sA eT : Int)
    (per : Nat) (cfg : MetricConfig) (isSum : Bool) : List (String × Option ℚ) :=
  if pyFalsy nb then []
  else
    match pyInt nb with
    | Except.error _e =>
      [(cfg.name ++ "_Avg", Option.none), (cfg.name ++ "_Peak", Option.none)]
    | Except.ok n =>
      if n = 0 then []
      else
        let s := collectBrokerSamples cw cfg cn sA eT per n
        let v := brokerAggregate isSum s.1 s.2
        [(cfg.name ++ "_Avg", v.1), (cfg.name ++ "_Peak", v.2)]

/-- The entries one provisioned metric config adds to metrics_data. -/
def processProvisionedMetric (cw : CloudWatch) (cn : String) (nb : PyVal)
    (sA sL eT : Int) (per : Nat) (cfg : MetricConfig) : List (String × Option ℚ) :=
  match cfg.aggregationType with
  | "cluster_latest_value" =>
    match cw (latestRequest cfg cn sL eT) with
    | Except.error _e => [(cfg.name, Option.none)]
    | Except.ok dps =>
      match latestDatapoint dps with
      | Option.none => [(cfg.name, Option.none)]
      | Option.some d => [(cfg.name, d.maximum)]
  | "sum_brokers_agg" => brokerMetricEntries cw cn nb sA eT per cfg true
  | "avg_brokers_peak_max_agg" => brokerMetricEntries cw cn nb sA eT per cfg false
  | _ => []

/-- The provisioned branch of get_msk_metrics: every config of
metric_configs processed in order over the window ending at eT. -/
def getProvisionedMetrics (cw : CloudWatch) (cn : String) (nb : PyVal) (eT : Int)
    (pd : Nat) : List (String × Option ℚ) :=
  metric_configs.foldl
    (fun acc cfg =>
      acc ++ processProvisionedMetric cw cn nb (eT - (pd * 86400 : Nat)) (eT - 900) eT
        (pd * 86400) cfg)
    []

/-- The entries one serverless metric config adds to metrics_data: the head
datapoint supplies Average and Maximum; an exception or an empty response
stores None under both keys. -/
def processServerlessMetric (cw : CloudWatch) (cn : String) (eT : Int) (pd : Nat)
    (cfg : ServerlessMetricConfig) : List (String × Option ℚ) :=
  match cw (serverlessRequest cfg cn eT pd) with
  | Except.error _e =>
    [(cfg.name ++ "_Avg", Option.none), (cfg.name ++ "_Peak", Option.none)]
  | Except.ok [] =>
    [(cfg.name ++ "_Avg", Option.none), (cfg.name ++ "_Peak", Option.none)]
  | Except.ok (d :: _rest) =>
    [(cfg.name ++ "_Avg", d.average), (cfg.name ++ "_Peak", d.maximum)]

/-- The serverless branch of get_msk_metrics. -/
def getServerlessMetrics (cw : CloudWatch) (cn : String) (eT : Int) (pd : Nat) :
    List (String × Option ℚ) :=
  serverless_metric_configs.foldl
    (fun acc cfg => acc ++ processServerlessMetric cw cn eT pd cfg) []

/-- get_msk_metrics: dispatch on the cluster type, unknown types yield an
empty result. -/
def get_msk_metrics (cw : CloudWatch) (cn ct : String) (nb : PyVal) (eT : Int)
    (pd : Nat) : List (String × Option ℚ) :=
  if ct == "Serverless" then getServerlessMetrics cw cn eT pd
  else if ct == "Provisioned" then getProvisionedMetrics cw cn nb eT pd
  else []

/-- Final-assembly back-fill of main: a column missing from a row is filled
with None, a present column keeps its value. -/
def backfillColumn (row : List (String × Option ℚ)) (col : String) : Option ℚ :=
  match List.lookup col row with
  | Option.some v => v
  | Option.none => Option.none

/-- The ClientAuthentication sub-structure: the four Enabled booleans read
through chained .get calls (a missing level reads as disabled). -/
structure AuthFlags where
  saslIamEnabled : Bool
  saslScramEnabled : Bool
  tlsEnabled : Bool
  unauthenticatedEnabled : Bool
deriving DecidableEq

/-- The auth_methods list: every enabled method appended in the fixed order
IAM, SCRAM, mTLS, Unauthenticated. -/
def authMethods (a : AuthFlags) : List String :=
  (if a.saslIamEnabled then ["IAM"] else []) ++
  (if a.saslScramEnabled then ["SCRAM"] else []) ++
  (if a.tlsEnabled then ["mTLS"] else []) ++
  (if a.unauthenticatedEnabled then ["Unauthenticated"] else [])

/-- The Authentication field: the placeholder when no ClientAuthentication
structure was seen, the joined method list when some method is enabled,
and the explicit marker when the structure is present but empty. -/
def authString (clientAuthInfo : Option AuthFlags) : String :=
  match clientAuthInfo with
  | Option.none => "N/A"
  | Option.some a =>
    if (authMethods a).isEmpty then "None Enabled"
    else String.intercalate ", " (authMethods a)

/-- The subnet id list split into query batches of at most 100 ids, as the
chunking list comprehension does. -/
def subnetChunks (l : List String) : List (List String) :=
  if h : l = [] then []
  else l.take 100 :: subnetChunks (l.drop 100)
termination_by l.length
decreasing_by
  simp only [List.length_drop]
  have hl : 0 < l.length := List.length_pos.mpr h
  omega

/-- Availability zones gathered across the batched describe_subnets calls,
with the resolver f giving each subnet its zone. -/
def gatherAZs (f : String → String) (chunks : List (List String)) : List String :=
  chunks.foldl (fun acc c => acc ++ c.map f) []

/-- Zone count derived from the client subnets: none gives the initial 0, a
failing describe_subnets lookup degrades to the raw subnet count, and a
successful lookup counts the distinct zones found. -/
def azFromSubnets (ec2 : Except Unit (String → String)) (subnets : List String) : Nat :=
  if subnets.isEmpty then 0
  else
    match ec2 with
    | Except.error _e => subnets.length
    | Except.ok f => ((gatherAZs f (subnetChunks subnets)).dedup).length

/-- NumberOfAvailabilityZones: the length of a truthy ZoneIds list, else
derived from the client subnets. -/
def computeAZCount (ec2 : Except Unit (String → String)) (zoneIds : Option (List String))
    (clientSubnets : List String) : Nat :=
  match zoneIds with
  | Option.some zl => if zl.isEmpty then azFromSubnets ec2 clientSubnets else zl.length
  | Option.none => azFromSubnets ec2 clientSubnets

/-- BrokerNodeGroupInfo of a provisioned cluster.  ebsVolumeSize is layered:
the outer level is presence of a truthy EbsStorageInfo, the inner level the
optional VolumeSize inside it. -/
structure BrokerNodeGroupInfo where
  instanceType : Option String
  ebsVolumeSize : Option (Option Nat)
  zoneIds : Option (List String)
  clientSubnets : List String
deriving DecidableEq

/-- The Provisioned sub-structure of a described cluster. -/
structure ProvisionedInfo where
  kafkaVersion : Option String
  numberOfBrokerNodes : Option Nat
  brokerNodeGroupInfo : BrokerNodeGroupInfo
  clientAuthentication : Option AuthFlags
deriving DecidableEq

/-- The Serverless sub-structure of a described cluster. -/
structure ServerlessInfo where
  clientAuthentication : Option AuthFlags
deriving DecidableEq

/-- The raw cluster_info dictionary: a truthy Provisioned or Serverless
sub-structure, plus the generic top-level V1 fields used by the fallback. -/
structure ClusterInfoRaw where
  clusterName : Option String
  provisioned : Option ProvisionedInfo
  serverless : Option ServerlessInfo
  currentKafkaVersion : Option String
  numberOfBrokerNodes : Option Nat
deriving DecidableEq

/-- Python falsiness of an optional string: absent or empty. -/
def strOptFalsy : Option String → Bool
  | Option.none => true
  | Option.some s => s == ""

/-- The details dictionary built by get_msk_cluster_details. -/
structure ClusterDetails where
  clusterName : Option String
  clusterType : String
  kafkaVersion : Option String
  authentication : String
  numberOfBrokerNodes : PyVal
  brokerInstanceType : PyVal
  storagePerBrokerGB : PyVal
  numberOfAvailabilityZones : Nat
deriving DecidableEq

/-- Shape inspection and field extraction of get_msk_cluster_details, from
the point where a non-empty cluster_info was obtained.  When neither a
truthy Provisioned nor a truthy Serverless sub-structure is present, the
later read of the never-assigned client_auth_info local raises an
UnboundLocalError that the enclosing handler catches, so the function
returns None for such a cluster. -/
def resolveDetails (ec2 : Except Unit (String → String)) (ci : ClusterInfoRaw) :
    Option ClusterDetails :=
  match ci.provisioned with
  | Option.some p =>
    Option.some
      { clusterName := ci.clusterName
        clusterType := "Provisioned"
        kafkaVersion :=
          if strOptFalsy p.kafkaVersion then ci.currentKafkaVersion else p.kafkaVersion
        authentication := authString p.clientAuthentication
        numberOfBrokerNodes :=
          match p.numberOfBrokerNodes with
          | Option.some n => PyVal.num n
          | Option.none => PyVal.none
        brokerInstanceType :=
          match p.brokerNodeGroupInfo.instanceType with
          | Option.some s => PyVal.str s
          | Option.none => PyVal.none
        storagePerBrokerGB :=
          match p.brokerNodeGroupInfo.ebsVolumeSize with
          | Option.some (Option.some v) => PyVal.num v
          | Option.some Option.none => PyVal.none
          | Option.none => PyVal.str "N/A"
        numberOfAvailabilityZones :=
          computeAZCount ec2 p.brokerNodeGroupInfo.zoneIds
            p.brokerNodeGroupInfo.clientSubnets }
  | Option.none =>
    match ci.serverless with
    | Option.some s =>
      Option.some
        { clusterName := ci.clusterName
          clusterType := "Serverless"
          kafkaVersion := Option.some "Managed (Serverless)"
          authentication := authString s.clientAuthentication
          numberOfBrokerNodes :=
            match ci.numberOfBrokerNodes with
            | Option.some n => if n = 0 then PyVal.str "N/A" else PyVal.num n
            | Option.none => PyVal.str "N/A"
          brokerInstanceType := PyVal.str "N/A"
          storagePerBrokerGB := PyVal.str "N/A"
          numberOfAvailabilityZones := 0 }
    | Option.none => Option.none

/-- One output row of the report. -/
structure ReportRow where
  accountId : String
  region : String
  details : ClusterDetails
  metrics : List (String × Option ℚ)
deriving DecidableEq

/-- Per-cluster step of main: resolution failure or a falsy cluster name
skips the cluster entirely, otherwise metrics are fetched and a row built. -/
def clusterRow (ec2 : Except Unit (String → String)) (cw : CloudWatch)
    (acct reg : String) (eT : Int) (pd : Nat) (ci : ClusterInfoRaw) : Option ReportRow :=
  match resolveDetails ec2 ci with
  | Option.none => Option.none
  | Option.some d =>
    match d.clusterName with
    | Option.none => Option.none
    | Option.some s =>
      if s = "" then Option.none
      else
        Option.some
          { accountId := acct
            region := reg
            details := d
            metrics := get_msk_metrics cw s d.clusterType d.numberOfBrokerNodes eT pd }

/-- The rows a region scan accumulates over its cluster list: skipped
clusters contribute nothing, the scan proceeds with the next cluster. -/
def scanClusters (ec2 : Except Unit (String → String)) (cw : CloudWatch)
    (acct reg : String) (eT : Int) (pd : Nat) (cis : List ClusterInfoRaw) :
    List ReportRow :=
  cis.filterMap (clusterRow ec2 cw acct reg eT pd)

/-! Helper lemmas. -/

theorem foldl_laterOf_of_le (ds : List Datapoint) (acc : Datapoint)
    (h : ∀ x ∈ ds, x.timestamp ≤ acc.timestamp) : ds.foldl laterOf acc = acc := by
  induction ds generalizing acc with
  | nil => rfl
  | cons x xs ih =>
    rw [List.foldl_cons]
    have hx : laterOf acc x = acc := by
      simp only [laterOf, if_neg (not_lt.mpr (h x (List.mem_cons_self x xs)))]
    rw [hx]
    exact ih acc (fun y hy => h y (List.mem_cons_of_mem x hy))

theorem foldl_laterOf_reaches (ds : List Datapoint) (acc d : Datapoint)
    (hmem : d ∈ ds) (hacc : acc.timestamp < d.timestamp)
    (h : ∀ x ∈ ds, x ≠ d → x.timestamp < d.timestamp) : ds.foldl laterOf acc = d := by
  induction ds generalizing acc with
  | nil => cases hmem
  | cons x xs ih =>
    rw [List.foldl_cons]
    by_cases hx : x = d
    · subst hx
      rw [show laterOf acc x = x from by simp only [laterOf, if_pos hacc]]
      refine foldl_laterOf_of_le xs x (fun y hy => ?_)
      by_cases hyx : y = x
      · subst hyx; exact le_refl _
      · exact le_of_lt (h y (List.mem_cons_of_mem x hy) hyx)
    · have hxd : x.timestamp < d.timestamp := h x (List.mem_cons_self x xs) hx
      have hmem2 : d ∈ xs := by
        rcases List.mem_cons.mp hmem with h1 | h1
        · exact absurd h1.symm hx
        · exact h1
      have hacc2 : (laterOf acc x).timestamp < d.timestamp := by
        simp only [laterOf]
        split
        · exact hxd
        · exact hacc
      exact ih (laterOf acc x) hmem2 hacc2 (fun y hy => h y (List.mem_cons_of_mem x hy))

theorem latestDatapoint_unique_max (dps : List Datapoint) (d : Datapoint)
    (hmem : d ∈ dps) (h : ∀ e ∈ dps, e ≠ d → e.timestamp < d.timestamp) :
    latestDatapoint dps = Option.some d := by
  cases dps with
  | nil => cases hmem
  | cons x xs =>
    simp only [latestDatapoint]
    by_cases hx : x = d
    · subst hx
      rw [foldl_laterOf_of_le xs x (fun y hy => ?_)]
      by_cases hyx : y = x
      · subst hyx; exact le_refl _
      · exact le_of_lt (h y (List.mem_cons_of_mem x hy) hyx)
    · have hmem2 : d ∈ xs := by
        rcases List.mem_cons.mp hmem with h1 | h1
        · exact absurd h1.symm hx
        · exact h1
      rw [foldl_laterOf_reaches xs x d hmem2 (h x (List.mem_cons_self x xs) hx)
        (fun y hy => h y (List.mem_cons_of_mem x hy))]

theorem foldl_max_mem (ms : List ℚ) (m : ℚ) : ms.foldl max m ∈ m :: ms := by
  induction ms generalizing m with
  | nil => exact List.mem_cons_self _ _
  | cons a as ih =>
    rw [List.foldl_cons]
    have h := ih (max m a)
    rcases List.mem_cons.mp h with h1 | h1
    · rcases max_choice m a with hm | hm
      · rw [h1, hm]; exact List.mem_cons_self _ _
      · rw [h1, hm]
        exact List.mem_cons_of_mem _ (List.mem_cons_self _ _)
    · exact List.mem_cons_of_mem _ (List.mem_cons_of_mem _ h1)

theorem le_foldl_max (ms : List ℚ) (m : ℚ) : ∀ x ∈ m :: ms, x ≤ ms.foldl max m := by
  induction ms generalizing m with
  | nil =>
    intro x hx
    rcases List.mem_cons.mp hx with h1 | h1
    · exact le_of_eq h1
    · cases h1
  | cons a as ih =>
    intro x hx
    rw [List.foldl_cons]
    rcases List.mem_cons.mp hx with rfl | hx2
    · exact le_trans (le_max_left x a) (ih (max x a) _ (List.mem_cons_self _ _))
    · rcases List.mem_cons.mp hx2 with rfl | hx3
      · exact le_trans (le_max_right m x) (ih (max m x) _ (List.mem_cons_self _ _))
      · exact ih (max m a) x (List.mem_cons_of_mem _ hx3)

theorem subnetChunks_flatten (l : List String) : (subnetChunks l).flatten = l := by
  generalize hn : l.length = n
  induction n using Nat.strong_induction_on generalizing l with
  | _ n ih =>
    rw [subnetChunks]
    split
    · rename_i hl; rw [hl]; rfl
    · rename_i hl
      have hlt : (l.drop 100).length < n := by
        rw [← hn]
        simp only [List.length_drop]
        have hpos := List.length_pos.mpr hl
        omega
      rw [List.flatten_cons, ih (l.drop 100).length hlt (l.drop 100) rfl]
      exact List.take_append_drop 100 l

theorem subnetChunks_size (l : List String) : ∀ c ∈ subnetChunks l, c.length ≤ 100 := by
  generalize hn : l.length = n
  induction n using Nat.strong_induction_on generalizing l with
  | _ n ih =>
    rw [subnetChunks]
    split
    · intro c hc; cases hc
    · rename_i hl
      intro c hc
      have hlt : (l.drop 100).length < n := by
        rw [← hn]
        simp only [List.length_drop]
        have hpos := List.length_pos.mpr hl
        omega
      rcases List.mem_cons.mp hc with rfl | h2
      · exact List.length_take_le 100 l
      · exact ih (l.drop 100).length hlt (l.drop 100) rfl c h2

theorem gatherAZs_eq (f : String → String) (chunks : List (List String)) :
    gatherAZs f chunks = chunks.flatten.map f := by
  suffices h : ∀ acc, chunks.foldl (fun a c => a ++ c.map f) acc = acc ++ chunks.flatten.map f by
    simpa [gatherAZs] using h []
  induction chunks with
  | nil => intro acc; simp
  | cons c cs ih =>
    intro acc
    simp only [List.foldl_cons, List.flatten_cons, List.map_append]
    rw [ih (acc ++ c.map f), List.append_assoc]

theorem resolveDetails_neither (ec2 : Except Unit (String → String)) (ci : ClusterInfoRaw)
    (hp : ci.provisioned = Option.none) (hs : ci.serverless = Option.none) :
    resolveDetails ec2 ci = Option.none := by
  simp [resolveDetails, hp, hs]

theorem keys_latest (cw : CloudWatch) (cn : String) (nb : PyVal) (sA sL eT : Int)
    (per : Nat) (nm nsp cwm u : String) :
    (processProvisionedMetric cw cn nb sA sL eT per
        ⟨nm, nsp, cwm, u, "cluster_latest_value"⟩).map Prod.fst = [nm] := by
  cases h : cw (latestRequest ⟨nm, nsp, cwm, u, "cluster_latest_value"⟩ cn sL eT) with
  | error e => simp [processProvisionedMetric, h]
  | ok dps =>
    cases hd : latestDatapoint dps <;> simp [processProvisionedMetric, h, hd]

theorem keys_broker_pos (cw : CloudWatch) (cn : String) (sA sL eT : Int) (per : Nat)
    (nm nsp cwm u agg : String) (m : Nat)
    (hagg : agg = "sum_brokers_agg" ∨ agg = "avg_brokers_peak_max_agg") :
    (processProvisionedMetric cw cn (PyVal.num (m + 1)) sA sL eT per
        ⟨nm, nsp, cwm, u, agg⟩).map Prod.fst = [nm ++ "_Avg", nm ++ "_Peak"] := by
  rcases hagg with rfl | rfl <;>
    simp [processProvisionedMetric, brokerMetricEntries, pyFalsy, pyInt]

/-! Claim theorems. -/

/-- C1: for a sum_brokers_agg metric on a provisioned cluster with a
positive broker count, the cluster average stored under name_Avg is the
plain sum of exactly the per-broker average samples obtained (a failed
broker contributes nothing and shrinks nothing else), the cluster peak
under name_Peak is the sum of the per-broker maximum samples obtained, and
an empty collection on either side stores None there. -/
theorem sum_across_brokers_aggregation (cw : CloudWatch) (cn : String)
    (sA sL eT : Int) (per : Nat) (nm nsp cwm u : String) (n : Nat) (hn : 0 < n) :
    processProvisionedMetric cw cn (PyVal.num n) sA sL eT per
        ⟨nm, nsp, cwm, u, "sum_brokers_agg"⟩ =
      [(nm ++ "_Avg",
          if (collectBrokerSamples cw ⟨nm, nsp, cwm, u, "sum_brokers_agg"⟩ cn sA eT per n).1.isEmpty
          then Option.none
          else Option.some (collectBrokerSamples cw ⟨nm, nsp, cwm, u, "sum_brokers_agg"⟩ cn sA eT per n).1.sum),
       (nm ++ "_Peak",
          if (collectBrokerSamples cw ⟨nm, nsp, cwm, u, "sum_brokers_agg"⟩ cn sA eT per n).2.isEmpty
          then Option.none
          else Option.some (collectBrokerSamples cw ⟨nm, nsp, cwm, u, "sum_brokers_agg"⟩ cn sA eT per n).2.sum)] := by
  obtain ⟨m, rfl⟩ : ∃ m, n = m + 1 := ⟨n - 1, by omega⟩
  simp [processProvisionedMetric, brokerMetricEntries, pyFalsy, pyInt, brokerAggregate]

/-- C1 witness: the spec scenario with four brokers where broker 3 fails
and the others return average samples 10, 20 and 30 (maxima 1, 2 and 4):
the cluster average is the sum 60, not divided by 4, and the peak is 7. -/
theorem sum_across_brokers_aggregation_witness :
    0 < 4 ∧
    processProvisionedMetric
      (fun r =>
        if r.dimensions = [("Cluster Name", "c"), ("Broker ID", "3")] then Except.error ()
        else if r.dimensions = [("Cluster Name", "c"), ("Broker ID", "1")] then
          Except.ok [⟨0, Option.some 10, Option.some 1⟩]
        else if r.dimensions = [("Cluster Name", "c"), ("Broker ID", "2")] then
          Except.ok [⟨0, Option.some 20, Option.some 2⟩]
        else Except.ok [⟨0, Option.some 30, Option.some 4⟩])
      "c" (PyVal.num 4) 0 0 0 604800
      ⟨"BytesInPerSec", "AWS/Kafka", "BytesInPerSec", "Bytes/Second", "sum_brokers_agg"⟩ =
      [("BytesInPerSec" ++ "_Avg", Option.some 60), ("BytesInPerSec" ++ "_Peak", Option.some 7)] := by
  refine ⟨by decide, ?_⟩
  have hc :
      collectBrokerSamples
        (fun r =>
          if r.dimensions = [("Cluster Name", "c"), ("Broker ID", "3")] then Except.error ()
          else if r.dimensions = [("Cluster Name", "c"), ("Broker ID", "1")] then
            Except.ok [⟨0, Option.some 10, Option.some 1⟩]
          else if r.dimensions = [("Cluster Name", "c"), ("Broker ID", "2")] then
            Except.ok [⟨0, Option.some 20, Option.some 2⟩]
          else Except.ok [⟨0, Option.some 30, Option.some 4⟩])
        ⟨"BytesInPerSec", "AWS/Kafka", "BytesInPerSec", "Bytes/Second", "sum_brokers_agg"⟩
        "c" 0 0 604800 4 = ([10, 20, 30], [1, 2, 4]) := by decide
  refine (sum_across_brokers_aggregation _ "c" 0 0 0 604800
    "BytesInPerSec" "AWS/Kafka" "BytesInPerSec" "Bytes/Second" 4 (by decide)).trans ?_
  rw [hc]
  norm_num

/-- C2: for an avg_brokers_peak_max_agg metric on a provisioned cluster
with a positive broker count, given non-empty collected per-broker average
and maximum lists, the stored cluster average is the arithmetic mean of the
collected averages (sum over count of collected samples) and the stored
cluster peak is a member of the collected maxima that bounds all of them,
i.e. their maximum, independent of the average computation. -/
theorem avg_across_brokers_peak_max_aggregation (cw : CloudWatch) (cn : String)
    (sA sL eT : Int) (per : Nat) (nm nsp cwm u : String) (n : Nat) (hn : 0 < n)
    (ha : (collectBrokerSamples cw ⟨nm, nsp, cwm, u, "avg_brokers_peak_max_agg"⟩ cn sA eT per n).1 ≠ [])
    (hp : (collectBrokerSamples cw ⟨nm, nsp, cwm, u, "avg_brokers_peak_max_agg"⟩ cn sA eT per n).2 ≠ []) :
    ∃ pk : ℚ,
      processProvisionedMetric cw cn (PyVal.num n) sA sL eT per
          ⟨nm, nsp, cwm, u, "avg_brokers_peak_max_agg"⟩ =
        [(nm ++ "_Avg",
            Option.some
              ((collectBrokerSamples cw ⟨nm, nsp, cwm, u, "avg_brokers_peak_max_agg"⟩ cn sA eT per n).1.sum /
                (((collectBrokerSamples cw ⟨nm, nsp, cwm, u, "avg_brokers_peak_max_agg"⟩ cn sA eT per n).1.length : ℚ)))),
         (nm ++ "_Peak", Option.some pk)] ∧
      pk ∈ (collectBrokerSamples cw ⟨nm, nsp, cwm, u, "avg_brokers_peak_max_agg"⟩ cn sA eT per n).2 ∧
      ∀ x ∈ (collectBrokerSamples cw ⟨nm, nsp, cwm, u, "avg_brokers_peak_max_agg"⟩ cn sA eT per n).2, x ≤ pk := by
  obtain ⟨m, rfl⟩ : ∃ m, n = m + 1 := ⟨n - 1, by omega⟩
  obtain ⟨a, as, h1⟩ : ∃ a as,
      (collectBrokerSamples cw ⟨nm, nsp, cwm, u, "avg_brokers_peak_max_agg"⟩ cn sA eT per (m + 1)).1 = a :: as := by
    rcases hx : (collectBrokerSamples cw ⟨nm, nsp, cwm, u, "avg_brokers_peak_max_agg"⟩ cn sA eT per (m + 1)).1 with _ | ⟨a, as⟩
    · exact absurd hx ha
    · exact ⟨a, as, rfl⟩
  obtain ⟨b, bs, h2⟩ : ∃ b bs,
      (collectBrokerSamples cw ⟨nm, nsp, cwm, u, "avg_brokers_peak_max_agg"⟩ cn sA eT per (m + 1)).2 = b :: bs := by
    rcases hx : (collectBrokerSamples cw ⟨nm, nsp, cwm, u, "avg_brokers_peak_max_agg"⟩ cn sA eT per (m + 1)).2 with _ | ⟨b, bs⟩
    · exact absurd hx hp
    · exact ⟨b, bs, rfl⟩
  refine ⟨bs.foldl max b, ?_, ?_, ?_⟩
  · simp [processProvisionedMetric, brokerMetricEntries, pyFalsy, pyInt, brokerAggregate, h1, h2]
  · rw [h2]; exact foldl_max_mem bs b
  · rw [h2]; exact le_foldl_max bs b

/-- C2 witness: three brokers returning average samples 4, 6 and 8 and
maximum samples 5, 9 and 2; the cluster average is the mean 6 and the
cluster peak is the single worst broker maximum 9, not a sum. -/
theorem avg_across_brokers_peak_max_aggregation_witness :
    (∃ pk : ℚ,
      processProvisionedMetric
        (fun r =>
          if r.dimensions = [("Cluster Name", "c"), ("Broker ID", "1")] then
            Except.ok [⟨0, Option.some 4, Option.some 5⟩]
          else if r.dimensions = [("Cluster Name", "c"), ("Broker ID", "2")] then
            Except.ok [⟨0, Option.some 6, Option.some 9⟩]
          else Except.ok [⟨0, Option.some 8, Option.some 2⟩])
        "c" (PyVal.num 3) 0 0 0 604800
        ⟨"RequestBytesMean", "AWS/Kafka", "RequestBytesMean", "Bytes", "avg_brokers_peak_max_agg"⟩ =
        [("RequestBytesMean" ++ "_Avg",
            Option.some
              ((collectBrokerSamples
                  (fun r =>
                    if r.dimensions = [("Cluster Name", "c"), ("Broker ID", "1")] then
                      Except.ok [⟨0, Option.some 4, Option.some 5⟩]
                    else if r.dimensions = [("Cluster Name", "c"), ("Broker ID", "2")] then
                      Except.ok [⟨0, Option.some 6, Option.some 9⟩]
                    else Except.ok [⟨0, Option.some 8, Option.some 2⟩])
                  ⟨"RequestBytesMean", "AWS/Kafka", "RequestBytesMean", "Bytes", "avg_brokers_peak_max_agg"⟩
                  "c" 0 0 604800 3).1.sum /
                (((collectBrokerSamples
                  (fun r =>
                    if r.dimensions = [("Cluster Name", "c"), ("Broker ID", "1")] then
                      Except.ok [⟨0, Option.some 4, Option.some 5⟩]
                    else if r.dimensions = [("Cluster Name", "c"), ("Broker ID", "2")] then
                      Except.ok [⟨0, Option.some 6, Option.some 9⟩]
                    else Except.ok [⟨0, Option.some 8, Option.some 2⟩])
                  ⟨"RequestBytesMean", "AWS/Kafka", "RequestBytesMean", "Bytes", "avg_brokers_peak_max_agg"⟩
                  "c" 0 0 604800 3).1.length : ℚ)))),
         ("RequestBytesMean" ++ "_Peak", Option.some pk)]) ∧
    processProvisionedMetric
      (fun r =>
        if r.dimensions = [("Cluster Name", "c"), ("Broker ID", "1")] then
          Except.ok [⟨0, Option.some 4, Option.some 5⟩]
        else if r.dimensions = [("Cluster Name", "c"), ("Broker ID", "2")] then
          Except.ok [⟨0, Option.some 6, Option.some 9⟩]
        else Except.ok [⟨0, Option.some 8, Option.some 2⟩])
      "c" (PyVal.num 3) 0 0 0 604800
      ⟨"RequestBytesMean", "AWS/Kafka", "RequestBytesMean", "Bytes", "avg_brokers_peak_max_agg"⟩ =
      [("RequestBytesMean" ++ "_Avg", Option.some 6), ("RequestBytesMean" ++ "_Peak", Option.some 9)] := by
  constructor
  · obtain ⟨pk, heq, _hmem, _hub⟩ := avg_across_brokers_peak_max_aggregation
      (fun r =>
        if r.dimensions = [("Cluster Name", "c"), ("Broker ID", "1")] then
          Except.ok [⟨0, Option.some 4, Option.some 5⟩]
        else if r.dimensions = [("Cluster Name", "c"), ("Broker ID", "2")] then
          Except.ok [⟨0, Option.some 6, Option.some 9⟩]
        else Except.ok [⟨0, Option.some 8, Option.some 2⟩])
      "c" 0 0 0 604800 "RequestBytesMean" "AWS/Kafka" "RequestBytesMean" "Bytes" 3
      (by decide) (by decide) (by decide)
    exact ⟨pk, heq⟩
  · have hc :
        collectBrokerSamples
          (fun r =>
            if r.dimensions = [("Cluster Name", "c"), ("Broker ID", "1")] then
              Except.ok [⟨0, Option.some 4, Option.some 5⟩]
            else if r.dimensions = [("Cluster Name", "c"), ("Broker ID", "2")] then
              Except.ok [⟨0, Option.some 6, Option.some 9⟩]
            else Except.ok [⟨0, Option.some 8, Option.some 2⟩])
          ⟨"RequestBytesMean", "AWS/Kafka", "RequestBytesMean", "Bytes", "avg_brokers_peak_max_agg"⟩
          "c" 0 0 604800 3 = ([4, 6, 8], [5, 9, 2]) := by decide
    simp only [processProvisionedMetric, brokerMetricEntries, pyFalsy, pyInt, hc,
      brokerAggregate]
    norm_num

/-- C3: for a cluster_latest_value metric, when the cluster-granularity
query returns a datapoint list containing a datapoint d whose timestamp is
strictly later than every other returned datapoint, the single stored entry
under the unsuffixed metric name is the Maximum statistic of d, whatever
the earlier datapoints carry. -/
theorem latest_cluster_value_selects_latest (cw : CloudWatch) (cn : String) (nb : PyVal)
    (sA sL eT : Int) (per : Nat) (nm nsp cwm u : String) (dps : List Datapoint)
    (d : Datapoint)
    (hcw : cw (latestRequest ⟨nm, nsp, cwm, u, "cluster_latest_value"⟩ cn sL eT) = Except.ok dps)
    (hmem : d ∈ dps)
    (hlatest : ∀ e ∈ dps, e ≠ d → e.timestamp < d.timestamp) :
    processProvisionedMetric cw cn nb sA sL eT per
        ⟨nm, nsp, cwm, u, "cluster_latest_value"⟩ = [(nm, d.maximum)] := by
  have hld : latestDatapoint dps = Option.some d :=
    latestDatapoint_unique_max dps d hmem hlatest
  simp [processProvisionedMetric, hcw, hld]

/-- C3 witness: two datapoints at timestamps 1 and 2 with Maximum values 5
and 7; the stored current value is 7, the value at the later timestamp,
regardless of the earlier value. -/
theorem latest_cluster_value_selects_latest_witness :
    processProvisionedMetric
      (fun _r => Except.ok [⟨1, Option.none, Option.some 5⟩, ⟨2, Option.none, Option.some 7⟩])
      "c" PyVal.none 0 0 0 604800
      ⟨"GlobalPartitionCount", "AWS/Kafka", "GlobalPartitionCount", "Count", "cluster_latest_value"⟩ =
      [("GlobalPartitionCount", Option.some 7)] :=
  latest_cluster_value_selects_latest
    (fun _r => Except.ok [⟨1, Option.none, Option.some 5⟩, ⟨2, Option.none, Option.some 7⟩])
    "c" PyVal.none 0 0 0 604800 "GlobalPartitionCount" "AWS/Kafka" "GlobalPartitionCount" "Count"
    [⟨1, Option.none, Option.some 5⟩, ⟨2, Option.none, Option.some 7⟩]
    ⟨2, Option.none, Option.some 7⟩ rfl (by decide) (by decide)

/-- C6: a serverless metric is queried over the whole window ending at the
report end time with one period spanning the window, the per-metric result
depends only on the response to that single request, a single returned
sample stores its Average under name_Avg and its Maximum under name_Peak,
an empty response stores None under both, and the serverless engine is the
concatenation of the two fixed throughput metric results. -/
theorem serverless_single_window_query (cw : CloudWatch) (cn : String) (eT : Int)
    (pd : Nat) (cfg : ServerlessMetricConfig) :
    ((serverlessRequest cfg cn eT pd).period = pd * 86400 ∧
      (serverlessRequest cfg cn eT pd).startTime = eT - (pd * 86400 : Nat) ∧
      (serverlessRequest cfg cn eT pd).endTime = eT) ∧
    (∀ cw2 : CloudWatch,
      cw (serverlessRequest cfg cn eT pd) = cw2 (serverlessRequest cfg cn eT pd) →
      processServerlessMetric cw cn eT pd cfg = processServerlessMetric cw2 cn eT pd cfg) ∧
    (∀ d : Datapoint, cw (serverlessRequest cfg cn eT pd) = Except.ok [d] →
      processServerlessMetric cw cn eT pd cfg =
        [(cfg.name ++ "_Avg", d.average), (cfg.name ++ "_Peak", d.maximum)]) ∧
    (cw (serverlessRequest cfg cn eT pd) = Except.ok [] →
      processServerlessMetric cw cn eT pd cfg =
        [(cfg.name ++ "_Avg", Option.none), (cfg.name ++ "_Peak", Option.none)]) ∧
    getServerlessMetrics cw cn eT pd =
      processServerlessMetric cw cn eT pd ⟨"BytesInPerSec", "Bytes/Second"⟩ ++
        processServerlessMetric cw cn eT pd ⟨"BytesOutPerSec", "Bytes/Second"⟩ := by
  refine ⟨⟨rfl, rfl, rfl⟩, ?_, ?_, ?_, rfl⟩
  · intro cw2 h
    simp only [processServerlessMetric, h]
  · intro d h
    simp [processServerlessMetric, h]
  · intro h
    simp [processServerlessMetric, h]

/-- C6 witness: one sample with Average 3 and Maximum 9 over a 7-day window
yields exactly those two values; an empty response yields None twice. -/
theorem serverless_single_window_query_witness :
    processServerlessMetric (fun _r => Except.ok [⟨0, Option.some 3, Option.some 9⟩])
        "c" 0 7 ⟨"BytesInPerSec", "Bytes/Second"⟩ =
      [("BytesInPerSec" ++ "_Avg", Option.some 3), ("BytesInPerSec" ++ "_Peak", Option.some 9)] ∧
    processServerlessMetric (fun _r => Except.ok []) "c" 0 7 ⟨"BytesOutPerSec", "Bytes/Second"⟩ =
      [("BytesOutPerSec" ++ "_Avg", Option.none), ("BytesOutPerSec" ++ "_Peak", Option.none)] :=
  ⟨(serverless_single_window_query (fun _r => Except.ok [⟨0, Option.some 3, Option.some 9⟩])
      "c" 0 7 ⟨"BytesInPerSec", "Bytes/Second"⟩).2.2.1 ⟨0, Option.some 3, Option.some 9⟩ rfl,
   (serverless_single_window_query (fun _r => Except.ok [])
      "c" 0 7 ⟨"BytesOutPerSec", "Bytes/Second"⟩).2.2.2.1 rfl⟩

/-- C10: when a serverless or per-broker query returns more than one
datapoint, only the head of the returned list is used — the stored values
come from the first datapoint whatever the rest contains, with no sorting
by timestamp. -/
theorem first_datapoint_only (cw : CloudWatch) (cn : String) (sA eT : Int)
    (pd per i : Nat) (scfg : ServerlessMetricConfig) (cfg : MetricConfig)
    (d : Datapoint) (rest : List Datapoint) :
    (cw (serverlessRequest scfg cn eT pd) = Except.ok (d :: rest) →
      processServerlessMetric cw cn eT pd scfg =
        [(scfg.name ++ "_Avg", d.average), (scfg.name ++ "_Peak", d.maximum)]) ∧
    (cw (brokerRequest cfg cn i sA eT per) = Except.ok (d :: rest) →
      brokerSample cw cfg cn sA eT per i = Option.some d) := by
  constructor
  · intro h
    simp [processServerlessMetric, h]
  · intro h
    simp [brokerSample, h]

/-- C10 witness: a response holding an old datapoint first and a datapoint
with a strictly later timestamp second; the first (older) one is used for
both the serverless result and the per-broker sample. -/
theorem first_datapoint_only_witness :
    processServerlessMetric
        (fun _r => Except.ok
          [⟨0, Option.some 1, Option.some 2⟩, ⟨100, Option.some 50, Option.some 60⟩])
        "c" 0 7 ⟨"BytesInPerSec", "Bytes/Second"⟩ =
      [("BytesInPerSec" ++ "_Avg", Option.some 1), ("BytesInPerSec" ++ "_Peak", Option.some 2)] ∧
    brokerSample
        (fun _r => Except.ok
          [⟨0, Option.some 1, Option.some 2⟩, ⟨100, Option.some 50, Option.some 60⟩])
        ⟨"BytesInPerSec", "AWS/Kafka", "BytesInPerSec", "Bytes/Second", "sum_brokers_agg"⟩
        "c" 0 0 604800 1 =
      Option.some ⟨0, Option.some 1, Option.some 2⟩ :=
  ⟨(first_datapoint_only
      (fun _r => Except.ok
        [⟨0, Option.some 1, Option.some 2⟩, ⟨100, Option.some 50, Option.some 60⟩])
      "c" 0 0 7 604800 1 ⟨"BytesInPerSec", "Bytes/Second"⟩
      ⟨"BytesInPerSec", "AWS/Kafka", "BytesInPerSec", "Bytes/Second", "sum_brokers_agg"⟩
      ⟨0, Option.some 1, Option.some 2⟩ [⟨100, Option.some 50, Option.some 60⟩]).1 rfl,
   (first_datapoint_only
      (fun _r => Except.ok
        [⟨0, Option.some 1, Option.some 2⟩, ⟨100, Option.some 50, Option.some 60⟩])
      "c" 0 0 7 604800 1 ⟨"BytesInPerSec", "Bytes/Second"⟩
      ⟨"BytesInPerSec", "AWS/Kafka", "BytesInPerSec", "Bytes/Second", "sum_brokers_agg"⟩
      ⟨0, Option.some 1, Option.some 2⟩ [⟨100, Option.some 50, Option.some 60⟩]).2 rfl⟩

/-- C8: the collected authentication methods are exactly the enabled flags
among IAM, SCRAM, mTLS, Unauthenticated in that fixed relative order; the
spec example flags yield exactly IAM and mTLS; a present structure with
nothing enabled yields the explicit marker, which differs from the
no-information placeholder used when the structure is absent. -/
theorem authentication_extraction :
    (∀ a : AuthFlags,
      authMethods a =
        (["IAM", "SCRAM", "mTLS", "Unauthenticated"]).filter (fun m =>
          (m == "IAM" && a.saslIamEnabled) || (m == "SCRAM" && a.saslScramEnabled) ||
          (m == "mTLS" && a.tlsEnabled) || (m == "Unauthenticated" && a.unauthenticatedEnabled))) ∧
    authMethods ⟨true, false, true, false⟩ = ["IAM", "mTLS"] ∧
    authString (Option.some ⟨true, false, true, false⟩) = "IAM, mTLS" ∧
    authString (Option.some ⟨false, false, false, false⟩) = "None Enabled" ∧
    authString Option.none = "N/A" ∧
    "None Enabled" ≠ "N/A" := by
  refine ⟨?_, by decide, by decide, by decide, rfl, by decide⟩
  intro a
  rcases a with ⟨i, s, t, u⟩
  cases i <;> cases s <;> cases t <;> cases u <;> rfl

/-- C7: a resolved descriptor always carries one of the two cluster types
Provisioned or Serverless; a raw description with neither a truthy
Provisioned nor a truthy Serverless sub-structure resolves to None (the
UnboundLocalError path), and such a cluster contributes no row while the
scan of the remaining clusters proceeds unchanged. -/
theorem capacity_shape_resolution :
    (∀ (ec2 : Except Unit (String → String)) (ci : ClusterInfoRaw) (d : ClusterDetails),
      resolveDetails ec2 ci = Option.some d →
      d.clusterType = "Provisioned" ∨ d.clusterType = "Serverless") ∧
    (∀ (ec2 : Except Unit (String → String)) (ci : ClusterInfoRaw),
      ci.provisioned = Option.none → ci.serverless = Option.none →
      resolveDetails ec2 ci = Option.none) ∧
    (∀ (ec2 : Except Unit (String → String)) (cw : CloudWatch) (acct reg : String)
      (eT : Int) (pd : Nat) (ci : ClusterInfoRaw) (rest : List ClusterInfoRaw),
      ci.provisioned = Option.none → ci.serverless = Option.none →
      scanClusters ec2 cw acct reg eT pd (ci :: rest) =
        scanClusters ec2 cw acct reg eT pd rest) := by
  refine ⟨?_, ?_, ?_⟩
  · intro ec2 ci d h
    cases hp : ci.provisioned with
    | some p =>
      simp only [resolveDetails, hp, Option.some.injEq] at h
      left
      rw [← h]
    | none =>
      cases hs : ci.serverless with
      | some s =>
        simp only [resolveDetails, hp, hs, Option.some.injEq] at h
        right
        rw [← h]
      | none =>
        rw [resolveDetails_neither ec2 ci hp hs] at h
        cases h
  · intro ec2 ci hp hs
    exact resolveDetails_neither ec2 ci hp hs
  · intro ec2 cw acct reg eT pd ci rest hp hs
    simp [scanClusters, List.filterMap_cons, clusterRow, resolveDetails_neither ec2 ci hp hs]

/-- C7 witness: a cluster description carrying a name but neither capacity
sub-structure resolves to None and is dropped from the scan. -/
theorem capacity_shape_resolution_witness :
    resolveDetails (Except.error ())
        ⟨Option.some "c", Option.none, Option.none, Option.none, Option.none⟩ =
      Option.none ∧
    scanClusters (Except.error ()) (fun _r => Except.error ()) "acct" "r" 0 7
        [⟨Option.some "c", Option.none, Option.none, Option.none, Option.none⟩] = [] := by
  constructor
  · exact capacity_shape_resolution.2.1 (Except.error ())
      ⟨Option.some "c", Option.none, Option.none, Option.none, Option.none⟩ rfl rfl
  · rw [capacity_shape_resolution.2.2 (Except.error ()) (fun _r => Except.error ())
      "acct" "r" 0 7 ⟨Option.some "c", Option.none, Option.none, Option.none, Option.none⟩
      [] rfl rfl]
    rfl

/-- C4 counterexample: with the non-numeric broker count string the claim
asserts both keys are absent from the raw result, but the engine stores
them with value None: looking BytesInPerSec_Avg up in the raw result
succeeds (finding a None value) instead of failing. -/
theorem broker_count_non_numeric_counterexample :
    List.lookup "BytesInPerSec_Avg"
        (getProvisionedMetrics (fun _r => Except.ok []) "c" (PyVal.str "N/A") 0 7) =
      Option.some Option.none ∧
    List.lookup "BytesInPerSec_Avg"
        (getProvisionedMetrics (fun _r => Except.ok []) "c" (PyVal.str "N/A") 0 7) ≠
      Option.none := by
  constructor
  · decide
  · decide

/-- C4 amended: for a broker-aggregated metric, a falsy broker count (absent,
zero, or empty) skips the loop and omits both keys from the raw result,
while a truthy non-numeric broker count makes int() raise so the per-metric
handler stores None under both keys; in every such case the value seen
after final-assembly back-fill is None — never a numeric zero. -/
theorem broker_count_gate_amended (cw : CloudWatch) (cn : String) (sA sL eT : Int)
    (per : Nat) (nm nsp cwm u agg : String) (nb : PyVal)
    (hagg : agg = "sum_brokers_agg" ∨ agg = "avg_brokers_peak_max_agg") :
    (pyFalsy nb = true →
      processProvisionedMetric cw cn nb sA sL eT per ⟨nm, nsp, cwm, u, agg⟩ = []) ∧
    (pyFalsy nb = false → pyInt nb = Except.error () →
      processProvisionedMetric cw cn nb sA sL eT per ⟨nm, nsp, cwm, u, agg⟩ =
        [(nm ++ "_Avg", Option.none), (nm ++ "_Peak", Option.none)]) ∧
    (pyFalsy nb = true ∨ pyInt nb = Except.error () →
      backfillColumn (processProvisionedMetric cw cn nb sA sL eT per ⟨nm, nsp, cwm, u, agg⟩)
          (nm ++ "_Avg") = Option.none ∧
      backfillColumn (processProvisionedMetric cw cn nb sA sL eT per ⟨nm, nsp, cwm, u, agg⟩)
          (nm ++ "_Peak") = Option.none) := by
  have hfalsy : pyFalsy nb = true →
      processProvisionedMetric cw cn nb sA sL eT per ⟨nm, nsp, cwm, u, agg⟩ = [] := by
    intro hf
    rcases hagg with rfl | rfl <;>
      simp [processProvisionedMetric, brokerMetricEntries, hf]
  have herr : pyFalsy nb = false → pyInt nb = Except.error () →
      processProvisionedMetric cw cn nb sA sL eT per ⟨nm, nsp, cwm, u, agg⟩ =
        [(nm ++ "_Avg", Option.none), (nm ++ "_Peak", Option.none)] := by
    intro hf he
    rcases hagg with rfl | rfl <;>
      simp [processProvisionedMetric, brokerMetricEntries, hf, he]
  refine ⟨hfalsy, herr, ?_⟩
  intro hor
  by_cases hf : pyFalsy nb = true
  · rw [hfalsy hf]
    exact ⟨rfl, rfl⟩
  · have hf2 : pyFalsy nb = false := by
      cases hx : pyFalsy nb
      · rfl
      · exact absurd hx hf
    have he : pyInt nb = Except.error () := by
      rcases hor with h1 | h1
      · exact absurd h1 hf
      · exact h1
    rw [herr hf2 he]
    constructor
    · simp [backfillColumn, List.lookup]
    · cases hbeq : (nm ++ "_Peak" == nm ++ "_Avg") <;>
        simp [backfillColumn, List.lookup, hbeq]

/-- C4 witness: an absent broker count omits both keys of a sum metric from
the raw result, and the non-numeric placeholder broker count yields None
after back-fill for both keys. -/
theorem broker_count_gate_amended_witness :
    processProvisionedMetric (fun _r => Except.ok []) "c" PyVal.none 0 0 0 604800
        ⟨"BytesInPerSec", "AWS/Kafka", "BytesInPerSec", "Bytes/Second", "sum_brokers_agg"⟩ = [] ∧
    backfillColumn
        (processProvisionedMetric (fun _r => Except.ok []) "c" (PyVal.str "N/A") 0 0 0 604800
          ⟨"BytesInPerSec", "AWS/Kafka", "BytesInPerSec", "Bytes/Second", "sum_brokers_agg"⟩)
        ("BytesInPerSec" ++ "_Avg") = Option.none :=
  ⟨(broker_count_gate_amended (fun _r => Except.ok []) "c" 0 0 0 604800
      "BytesInPerSec" "AWS/Kafka" "BytesInPerSec" "Bytes/Second" "sum_brokers_agg"
      PyVal.none (Or.inl rfl)).1 rfl,
   ((broker_count_gate_amended (fun _r => Except.ok []) "c" 0 0 0 604800
      "BytesInPerSec" "AWS/Kafka" "BytesInPerSec" "Bytes/Second" "sum_brokers_agg"
      (PyVal.str "N/A") (Or.inl rfl)).2.2 (Or.inr (by decide))).1⟩

/-- C5 counterexample: with broker count zero, BytesInPerSec is defined in
the policy table but the raw MetricResult contains no entry for it: the
claim that every policy metric always has an entry fails. -/
theorem metric_result_missing_key_counterexample :
    (metric_configs.map MetricConfig.name).contains "BytesInPerSec" = true ∧
    List.lookup "BytesInPerSec_Avg"
        (getProvisionedMetrics (fun _r => Except.ok []) "c" (PyVal.num 0) 0 7) =
      Option.none ∧
    List.lookup "BytesInPerSec_Peak"
        (getProvisionedMetrics (fun _r => Except.ok []) "c" (PyVal.num 0) 0 7) =
      Option.none := by
  refine ⟨by decide, by decide, by decide⟩

/-- C5 amended: for a provisioned cluster with a positive integer broker
count, and for every behaviour of the metrics backend — including one where
every single query raises — the raw MetricResult carries exactly one entry
per policy key, in table order: per-metric failures are isolated and no
sibling metric is lost, with None stored for anything unobtainable. -/
theorem metric_result_keys_amended (cw : CloudWatch) (cn : String) (eT : Int)
    (pd : Nat) (n : Nat) (hn : 0 < n) :
    (getProvisionedMetrics cw cn (PyVal.num n) eT pd).map Prod.fst =
      ["StorageUsedPercent_Avg", "StorageUsedPercent_Peak", "GlobalPartitionCount",
       "GlobalTopicCount", "BytesInPerSec_Avg", "BytesInPerSec_Peak",
       "BytesOutPerSec_Avg", "BytesOutPerSec_Peak", "ClientConnectionCount_Avg",
       "ClientConnectionCount_Peak", "ConnectionCloseRate_Avg", "ConnectionCloseRate_Peak",
       "ConnectionCreationRate_Avg", "ConnectionCreationRate_Peak",
       "RequestBytesMean_Avg", "RequestBytesMean_Peak"] := by
  obtain ⟨m, rfl⟩ : ∃ m, n = m + 1 := ⟨n - 1, by omega⟩
  simp only [getProvisionedMetrics, metric_configs, List.foldl_cons, List.foldl_nil,
    List.nil_append, List.map_append,
    keys_latest cw cn (PyVal.num (m + 1)),
    keys_broker_pos cw cn (eT - (pd * 86400 : Nat)) (eT - 900) eT (pd * 86400)
      _ _ _ _ "sum_brokers_agg" m (Or.inl rfl),
    keys_broker_pos cw cn (eT - (pd * 86400 : Nat)) (eT - 900) eT (pd * 86400)
      _ _ _ _ "avg_brokers_peak_max_agg" m (Or.inr rfl)]
  rfl

/-- C5 witness: two brokers and a backend that raises on every request
still yield the full 16-key raw result. -/
theorem metric_result_keys_amended_witness :
    (getProvisionedMetrics (fun _r => Except.error ()) "c" (PyVal.num 2) 0 7).map Prod.fst =
      ["StorageUsedPercent_Avg", "StorageUsedPercent_Peak", "GlobalPartitionCount",
       "GlobalTopicCount", "BytesInPerSec_Avg", "BytesInPerSec_Peak",
       "BytesOutPerSec_Avg", "BytesOutPerSec_Peak", "ClientConnectionCount_Avg",
       "ClientConnectionCount_Peak", "ConnectionCloseRate_Avg", "ConnectionCloseRate_Peak",
       "ConnectionCreationRate_Avg", "ConnectionCreationRate_Peak",
       "RequestBytesMean_Avg", "RequestBytesMean_Peak"] :=
  metric_result_keys_amended (fun _r => Except.error ()) "c" 0 7 2 (by decide)

/-- C9 counterexample: a present but empty zone-id list is treated like an
absent one — with two subnets resolving to one zone the computed count is
1, not the 0 the claim requires for the present empty list. -/
theorem zone_count_empty_list_counterexample :
    (Option.some ([] : List String)).isSome = true ∧
    computeAZCount (Except.ok (fun _s => "az1")) (Option.some []) ["s1", "s2"] = 1 ∧
    computeAZCount (Except.ok (fun _s => "az1")) (Option.some []) ["s1", "s2"] ≠
      ([] : List String).length := by
  have h1 : computeAZCount (Except.ok (fun _s => "az1")) (Option.some []) ["s1", "s2"] = 1 := by
    simp only [computeAZCount, azFromSubnets, gatherAZs]
    rw [subnetChunks]
    simp only [List.take, List.drop]
    rw [subnetChunks]
    simp [List.dedup]
  exact ⟨rfl, h1, by rw [h1]; decide⟩

/-- C9 amended: the zone count equals the length of a present non-empty
zone-id list; a present empty list behaves exactly like an absent one; on a
successful subnet lookup the count is the number of distinct zones of all
resolved subnets, gathered in batches of at most 100 ids per call; on a
lookup failure it degrades to the raw subnet count, never raising. -/
theorem zone_count_resolution_amended (ec2 : Except Unit (String → String))
    (zl subs : List String) (f : String → String) :
    (zl ≠ [] → computeAZCount ec2 (Option.some zl) subs = zl.length) ∧
    (computeAZCount ec2 (Option.some []) subs = computeAZCount ec2 Option.none subs) ∧
    (computeAZCount (Except.ok f) Option.none subs = ((subs.map f).dedup).length) ∧
    (subs ≠ [] → computeAZCount (Except.error ()) Option.none subs = subs.length) ∧
    (∀ c ∈ subnetChunks subs, c.length ≤ 100) := by
  refine ⟨?_, ?_, ?_, ?_, subnetChunks_size subs⟩
  · intro hzl
    simp [computeAZCount, List.isEmpty_iff, hzl]
  · simp [computeAZCount]
  · by_cases hs : subs = []
    · subst hs
      simp [computeAZCount, azFromSubnets]
    · simp only [computeAZCount, azFromSubnets,
        List.isEmpty_iff, if_neg hs]
      rw [gatherAZs_eq, subnetChunks_flatten]
  · intro hs
    simp [computeAZCount, azFromSubnets, List.isEmpty_iff, hs]

/-- C9 witness: a non-empty explicit zone-id list is counted directly even
when the subnet lookup would fail, and on a failing lookup with no zone-id
list the raw subnet count is used. -/
theorem zone_count_resolution_amended_witness :
    computeAZCount (Except.error ()) (Option.some ["use1-az1", "use1-az2"]) ["s1"] =
      (["use1-az1", "use1-az2"] : List String).length ∧
    computeAZCount (Except.error ()) Option.none ["s1", "s2", "s3"] =
      (["s1", "s2", "s3"] : List String).length :=
  ⟨(zone_count_resolution_amended (Except.error ()) ["use1-az1", "use1-az2"] ["s1"]
      (fun _s => "x")).1 (by decide),
   (zone_count_resolution_amended (Except.error ()) ["use1-az1", "use1-az2"]
      ["s1", "s2", "s3"] (fun _s => "x")).2.2.2.1 (by decide)⟩

end Msk
